/-
Verification of the freezeLedger client-side auth/session layer.

This file embeds, in Lean 4, the behaviour of:
  * `fetchWithAuth` (the global fetch wrapper with automatic JWT refresh
    on 401, from frontend/lib/fetchWithAuth.js),
  * the auth store `hydrate` and `clearAuth` actions (frontend/lib/authStore.js,
    the version whose hydration performs a refresh-and-retry on 401),
  * the product store CRUD actions (frontend/lib/productStore.js),
and proves the behavioural properties stated in the design spec.

The HTTP transport is modelled as an oracle `Nat → FetchOutcome` giving, for
the i-th request issued during one operation, either a resolved `Response`
or a rejected promise (a transport fault).  Each embedded operation returns
the ordered list of requests it issued, the resulting session / store state,
any navigations it performed, and its result, so that counting requests,
session mutation and effect framing are all directly expressible.
-/

import Mathlib

namespace FreezeLedger

/-! ## Data model: requests, responses, transport -/

/-- Fetch options as read by the code: `method`, `body`, `headers`,
`credentials`.  `none` models an absent (undefined) JS field. -/
structure FetchOptions where
  method : Option String := none
  body : Option String := none
  headers : List (String × String) := []
  credentials : Option String := none
deriving Repr, DecidableEq

/-- One HTTP request as issued to the platform `fetch`: a URL plus options. -/
structure Request where
  url : String
  options : FetchOptions
deriving Repr, DecidableEq

/-- An opaque product record; `id` is what the store update/delete logic
compares, `payload` stands for the remaining fields. -/
structure Product where
  id : Nat
  payload : String
deriving Repr, DecidableEq

/-- A resolved HTTP response, as viewed by the code: the status plus the
parsed JSON body in the shapes the callers read it
(`/me` profile, product list, single product, error `detail` field). -/
structure Response where
  status : Nat
  userBody : String := ""
  listBody : List Product := []
  itemBody : Product := ⟨0, ""⟩
  detailBody : Option String := none
deriving Repr, DecidableEq

/-- Field `Response.ok` of the fetch API: status in the inclusive-exclusive
range 200..300. -/
def Response.ok (r : Response) : Bool := 200 ≤ r.status && r.status < 300

/-- Outcome of one platform `fetch` call: the promise resolves with a
response, or rejects with a transport/network fault (carried as its
message). -/
inductive FetchOutcome where
  | success (r : Response)
  | fault (msg : String)
deriving Repr, DecidableEq

/-- Result of an embedded async function: it returns a response, or it
throws (propagates a fault). -/
inductive FetchResult where
  | ret (r : Response)
  | thrown (msg : String)
deriving Repr, DecidableEq

/-! ## Session state (authStore) -/

/-- The auth store state: `user` profile (or null), `isAuthenticated`,
`loading`, `error`. -/
structure Session where
  user : Option String
  isAuthenticated : Bool
  loading : Bool
  error : Option String
deriving Repr, DecidableEq

/-- The fully cleared session: user null, unauthenticated, not loading,
no error. -/
def clearedSession : Session := ⟨none, false, false, none⟩

/-- Action `clearAuth` of the auth store: resets user, isAuthenticated, error and
loading, regardless of the previous state. -/
def clearAuth (_s : Session) : Session := clearedSession

/-! ## URLs and endpoint classification -/

/-- Constant `API_BASE_URL`: the configured base URL (the fallback value in the code). -/
def API_BASE_URL : String := "http://localhost:8000"

/-- URL of the token refresh endpoint, as built by the code. -/
def refreshUrl : String := API_BASE_URL ++ "/api/auth/refresh/"

/-- URL of the identity-check endpoint used by hydration. -/
def meUrl : String := API_BASE_URL ++ "/api/auth/me/"

/-- URL of the product collection endpoint. -/
def productsUrl : String := API_BASE_URL ++ "/api/products/"

/-- URL of a single product resource. -/
def productItemUrl (productId : Nat) : String :=
  API_BASE_URL ++ "/api/products/" ++ toString productId ++ "/"

/-- Whether `pat` occurs as a contiguous run inside `l`. -/
def listContainsSeq (pat : List Char) : List Char → Bool
  | [] => pat.isEmpty
  | c :: rest => pat.isPrefixOf (c :: rest) || listContainsSeq pat rest

/-- JavaScript `s.includes(pat)`: substring containment. -/
def jsIncludes (s pat : String) : Bool := listContainsSeq pat.toList s.toList

/-- Predicate `isAuthEndpoint` from the fetch wrapper: a URL containing the login,
refresh or logout path segment is a credential-issuing endpoint and is
never retried. -/
def isAuthEndpoint (url : String) : Bool :=
  jsIncludes url "/auth/login/" ||
  jsIncludes url "/auth/refresh/" ||
  jsIncludes url "/auth/logout/"

/-! ## The fetch wrapper -/

/-- JS object-spread update of a header object: each entry of `extra`
overwrites an existing key of `base` or is appended. -/
def spreadHeaders (base extra : List (String × String)) : List (String × String) :=
  extra.foldl (fun hs kv =>
    if hs.any (fun p => p.1 == kv.1) then
      hs.map (fun p => if p.1 == kv.1 then kv else p)
    else hs ++ [kv]) base

/-- The options `fetchWithAuth` actually sends: the options of the caller with
`credentials` forced to "include" and headers merged over a
`Content-Type: application/json` default. -/
def buildFetchOptions (options : FetchOptions) : FetchOptions :=
  { options with
    credentials := some "include"
    headers := spreadHeaders [("Content-Type", "application/json")] options.headers }

/-- The refresh request issued by `fetchWithAuth` on a 401: POST to the
refresh endpoint with credentials included. -/
def refreshRequest : Request :=
  ⟨refreshUrl,
   { method := some "POST"
     body := none
     headers := [("Content-Type", "application/json")]
     credentials := some "include" }⟩

/-- The navigations performed when the code redirects to `/login`:
only when `window` is defined (browser context). -/
def loginNav (windowDefined : Bool) : List String :=
  if windowDefined then ["/login"] else []

/-- Everything one `fetchWithAuth` call did: the requests it issued in
order, the session afterwards, the navigations it performed, and its
returned/thrown result. -/
structure ExecOutput where
  requests : List Request
  session : Session
  navigations : List String
  result : FetchResult
deriving Repr, DecidableEq

/-- Function `fetchWithAuth url options`: issue the request with credentials
included; on a 401 from a non-auth endpoint, POST to the refresh
endpoint; if the refresh response is ok, retry the original request once
and return that second response; otherwise clear the session, redirect to
`/login` and return the failing refresh response; a fault thrown during
the refresh attempt (or the retry, both inside the same `try`) clears the
session, redirects and is re-thrown.  `t` is the transport oracle, `w`
tells whether `window` is defined, `s` the session before the call. -/
def fetchWithAuth (url : String) (options : FetchOptions)
    (t : Nat → FetchOutcome) (w : Bool) (s : Session) : ExecOutput :=
  let fetchOptions := buildFetchOptions options
  let req0 : Request := ⟨url, fetchOptions⟩
  match t 0 with
  | .fault e => ⟨[req0], s, [], .thrown e⟩
  | .success response =>
    if response.status != 401 || isAuthEndpoint url then
      ⟨[req0], s, [], .ret response⟩
    else
      match t 1 with
      | .fault e =>
        ⟨[req0, refreshRequest], clearAuth s, loginNav w, .thrown e⟩
      | .success refreshResponse =>
        if refreshResponse.ok then
          match t 2 with
          | .fault e =>
            ⟨[req0, refreshRequest, req0], clearAuth s, loginNav w, .thrown e⟩
          | .success response2 =>
            ⟨[req0, refreshRequest, req0], s, [], .ret response2⟩
        else
          ⟨[req0, refreshRequest], clearAuth s, loginNav w, .ret refreshResponse⟩

/-! ## Startup hydration (authStore.hydrate) -/

/-- What `localStorage.getItem("auth-store")` plus `JSON.parse` yields:
nothing stored, a stored value that fails to parse, or a parsed value
whose `state?.isAuthenticated` is truthy or falsy. -/
inductive StoredState where
  | absent
  | malformed
  | parsed (isAuthenticated : Bool)
deriving Repr, DecidableEq

/-- The identity-check request hydration issues: GET `/api/auth/me/` with
credentials included. -/
def meRequest : Request :=
  ⟨meUrl,
   { method := some "GET"
     body := none
     headers := [("Content-Type", "application/json")]
     credentials := some "include" }⟩

/-- Result of one hydration run: requests issued, session afterwards. -/
structure HydrateOutput where
  requests : List Request
  session : Session
deriving Repr, DecidableEq

/-- Action `hydrate`: set loading; with no persisted state or a falsy persisted
`isAuthenticated` flag, clear the session without any network call;
otherwise GET `/me`; on a 401 attempt one refresh and, if it is ok, retry
`/me` once; a failing or faulting refresh, a non-ok final response, or any
transport fault clears the session; an ok final response populates the
profile.  `loading` is reset in the `finally`. -/
def hydrate (storage : StoredState) (t : Nat → FetchOutcome) (s0 : Session) :
    HydrateOutput :=
  let s := { s0 with loading := true }
  let bodyResult : List Request × Session :=
    match storage with
    | .absent =>
      ([], { s with user := none, isAuthenticated := false, error := none,
                    loading := false })
    | .malformed =>
      -- JSON.parse throws; the outer catch clears user/isAuthenticated/error
      ([], { s with user := none, isAuthenticated := false, error := none })
    | .parsed flag =>
      if !flag then
        ([], { s with user := none, isAuthenticated := false, error := none,
                      loading := false })
      else
        match t 0 with
        | .fault _ =>
          ([meRequest],
           { s with user := none, isAuthenticated := false, error := none })
        | .success response =>
          if response.status == 401 then
            match t 1 with
            | .fault _ =>
              ([meRequest, refreshRequest],
               { s with user := none, isAuthenticated := false, error := none,
                        loading := false })
            | .success refreshResponse =>
              if refreshResponse.ok then
                match t 2 with
                | .fault _ =>
                  ([meRequest, refreshRequest, meRequest],
                   { s with user := none, isAuthenticated := false,
                            error := none, loading := false })
                | .success response2 =>
                  if response2.ok then
                    ([meRequest, refreshRequest, meRequest],
                     { s with user := some response2.userBody,
                              isAuthenticated := true, error := none })
                  else
                    ([meRequest, refreshRequest, meRequest],
                     { s with user := none, isAuthenticated := false,
                              error := none })
              else
                ([meRequest, refreshRequest],
                 { s with user := none, isAuthenticated := false,
                          error := none, loading := false })
          else
            if response.ok then
              ([meRequest],
               { s with user := some response.userBody,
                        isAuthenticated := true, error := none })
            else
              ([meRequest],
               { s with user := none, isAuthenticated := false, error := none })
  ⟨bodyResult.1, { bodyResult.2 with loading := false }⟩

/-! ## Product store -/

/-- The product store state: products list, loading flag, error. -/
structure ProductState where
  products : List Product
  loading : Bool
  error : Option String
deriving Repr, DecidableEq

/-- Result of one product-store action: requests issued, store state
afterwards. -/
structure ProductOutput where
  requests : List Request
  state : ProductState
deriving Repr, DecidableEq

/-- JS `x || default` over a parsed `detail` field: an absent or empty
detail is falsy and yields the default message. -/
def jsOrDefault (d : Option String) (deflt : String) : String :=
  match d with
  | some v => if v == "" then deflt else v
  | none => deflt

/-- The plain JSON options every product-store call uses: credentials
included, `Content-Type: application/json`, plus the given method/body. -/
def plainJsonOptions (method : String) (body : Option String := none) :
    FetchOptions :=
  { method := some method
    body := body
    headers := [("Content-Type", "application/json")]
    credentials := some "include" }

/-- Action `fetchProducts`: GET the collection with the plain HTTP client; ok
replaces the products; 401 empties the products and sets "Unauthorized";
other statuses set a generic error; a fault stores its message. -/
def fetchProducts (t : Nat → FetchOutcome) (st : ProductState) : ProductOutput :=
  let st1 := { st with loading := true, error := none }
  let req : Request := ⟨productsUrl, plainJsonOptions "GET"⟩
  let st2 :=
    match t 0 with
    | .fault e => { st1 with error := some e }
    | .success r =>
      if r.ok then { st1 with products := r.listBody, error := none }
      else if r.status == 401 then { st1 with products := [], error := some "Unauthorized" }
      else { st1 with error := some "Failed to fetch products" }
  ⟨[req], { st2 with loading := false }⟩

/-- Action `createProduct`: POST the new product with the plain HTTP client; ok
prepends the created product; 401 sets "Unauthorized"; other statuses
surface the response `detail` (or a default); a fault stores its
message. -/
def createProduct (productData : String) (t : Nat → FetchOutcome)
    (st : ProductState) : ProductOutput :=
  let st1 := { st with loading := true, error := none }
  let req : Request := ⟨productsUrl, plainJsonOptions "POST" (some productData)⟩
  let st2 :=
    match t 0 with
    | .fault e => { st1 with error := some e }
    | .success r =>
      if r.ok then { st1 with products := r.itemBody :: st1.products, error := none }
      else if r.status == 401 then { st1 with error := some "Unauthorized" }
      else { st1 with error := some (jsOrDefault r.detailBody "Failed to create product") }
  ⟨[req], { st2 with loading := false }⟩

/-- Action `updateProduct`: PUT the product with the plain HTTP client; ok
replaces the matching product in place; 401 sets "Unauthorized"; 403 sets
the ownership error; other statuses surface `detail`; a fault stores its
message. -/
def updateProduct (productId : Nat) (productData : String)
    (t : Nat → FetchOutcome) (st : ProductState) : ProductOutput :=
  let st1 := { st with loading := true, error := none }
  let req : Request := ⟨productItemUrl productId, plainJsonOptions "PUT" (some productData)⟩
  let st2 :=
    match t 0 with
    | .fault e => { st1 with error := some e }
    | .success r =>
      if r.ok then
        { st1 with
          products := st1.products.map (fun (p : Product) => if p.id == productId then r.itemBody else p)
          error := none }
      else if r.status == 401 then { st1 with error := some "Unauthorized" }
      else if r.status == 403 then
        { st1 with error := some "You can only update your own products" }
      else { st1 with error := some (jsOrDefault r.detailBody "Failed to update product") }
  ⟨[req], { st2 with loading := false }⟩

/-- Action `deleteProduct`: DELETE the product with the plain HTTP client; ok
removes it from the list; 401 sets "Unauthorized"; 403 sets the ownership
error; other statuses surface `detail`; a fault stores its message. -/
def deleteProduct (productId : Nat) (t : Nat → FetchOutcome)
    (st : ProductState) : ProductOutput :=
  let st1 := { st with loading := true, error := none }
  let req : Request := ⟨productItemUrl productId, plainJsonOptions "DELETE"⟩
  let st2 :=
    match t 0 with
    | .fault e => { st1 with error := some e }
    | .success r =>
      if r.ok then
        { st1 with products := st1.products.filter (fun (p : Product) => !(p.id == productId))
                   error := none }
      else if r.status == 401 then { st1 with error := some "Unauthorized" }
      else if r.status == 403 then
        { st1 with error := some "You can only delete your own products" }
      else { st1 with error := some (jsOrDefault r.detailBody "Failed to delete product") }
  ⟨[req], { st2 with loading := false }⟩

/-! ## Verification-outcome predicate and concrete transport oracles -/

/-- The notion, from the spec, of a hydration verification that concludes
authenticated: the `/me` call succeeds outright, or it returns 401 and the
refresh plus the retried `/me` both succeed. -/
def verificationRecovered (t : Nat → FetchOutcome) : Bool :=
  match t 0 with
  | .fault _ => false
  | .success r =>
    if r.status == 401 then
      match t 1 with
      | .fault _ => false
      | .success rr =>
        rr.ok && (match t 2 with
                  | .fault _ => false
                  | .success r2 => r2.ok)
    else r.ok

/-- Oracle: 401 first, refresh ok, then 204. -/
def oracleRefreshOk : Nat → FetchOutcome
  | 0 => .success { status := 401 }
  | 1 => .success { status := 200 }
  | _ => .success { status := 204 }

/-- Oracle: every request resolves with status 401. -/
def oracle401 : Nat → FetchOutcome
  | _ => .success { status := 401 }

/-- Oracle: every request resolves ok (status 200). -/
def oracle200 : Nat → FetchOutcome
  | _ => .success { status := 200 }

/-- Oracle: every request resolves with a server error (status 500). -/
def oracle500 : Nat → FetchOutcome
  | _ => .success { status := 500 }

/-- Oracle: 401 first, then the refresh attempt faults. -/
def oracleRefreshFault : Nat → FetchOutcome
  | 0 => .success { status := 401 }
  | _ => .fault "network down"

/-- Oracle: 401 first, refresh ok, then the retry faults. -/
def oracleRetryFault : Nat → FetchOutcome
  | 0 => .success { status := 401 }
  | 1 => .success { status := 200 }
  | _ => .fault "network down"

/-! ## Shared lemmas -/

theorem isAuthEndpoint_refreshUrl : isAuthEndpoint refreshUrl = true := by decide

theorem ne_refreshUrl_of_not_authEndpoint {url : String}
    (h : isAuthEndpoint url = false) : url ≠ refreshUrl := by
  intro he
  rw [he, isAuthEndpoint_refreshUrl] at h
  cases h

/-! ## Claim theorems -/

/-- C1: for a call to a non-credential-issuing endpoint whose first
response is 401 and whose refresh POST succeeds, `fetchWithAuth` issues
exactly two requests to the original URL (identical method, body and
headers) and exactly one to the refresh endpoint, returns the second
original response as final whatever its status, and performs no further
refresh or retry and no session change. -/
theorem fetchWithAuth_refresh_success_retries_once
    (url : String) (options : FetchOptions) (t : Nat → FetchOutcome)
    (w : Bool) (s : Session) (r0 r1 r2 : Response)
    (h0 : t 0 = .success r0) (hs : r0.status = 401)
    (ha : isAuthEndpoint url = false)
    (h1 : t 1 = .success r1) (hok : r1.ok = true)
    (h2 : t 2 = .success r2) :
    fetchWithAuth url options t w s =
      ⟨[⟨url, buildFetchOptions options⟩, refreshRequest,
        ⟨url, buildFetchOptions options⟩], s, [], .ret r2⟩ ∧
    (fetchWithAuth url options t w s).requests.countP
      (fun q => q.url == url) = 2 ∧
    (fetchWithAuth url options t w s).requests.countP
      (fun q => q.url == refreshUrl) = 1 := by
  have hne : url ≠ refreshUrl := ne_refreshUrl_of_not_authEndpoint ha
  have hmain : fetchWithAuth url options t w s =
      ⟨[⟨url, buildFetchOptions options⟩, refreshRequest,
        ⟨url, buildFetchOptions options⟩], s, [], .ret r2⟩ := by
    simp [fetchWithAuth, h0, h1, h2, hs, ha, hok]
  refine ⟨hmain, ?_, ?_⟩ <;>
    rw [hmain] <;>
    simp [List.countP_cons, refreshRequest, hne, Ne.symm hne]

/-- Witness for C1 at a concrete products URL and the 401/refresh-ok/204
oracle. -/
theorem fetchWithAuth_refresh_success_retries_once_witness :
    fetchWithAuth productsUrl {} oracleRefreshOk true clearedSession =
      ⟨[⟨productsUrl, buildFetchOptions {}⟩, refreshRequest,
        ⟨productsUrl, buildFetchOptions {}⟩], clearedSession, [],
       .ret { status := 204 }⟩ ∧
    (fetchWithAuth productsUrl {} oracleRefreshOk true clearedSession).requests.countP
      (fun q => q.url == productsUrl) = 2 ∧
    (fetchWithAuth productsUrl {} oracleRefreshOk true clearedSession).requests.countP
      (fun q => q.url == refreshUrl) = 1 :=
  fetchWithAuth_refresh_success_retries_once productsUrl {} oracleRefreshOk
    true clearedSession { status := 401 } { status := 200 } { status := 204 }
    rfl rfl (by decide) rfl rfl rfl

/-- C3: when the first response is not 401, or the target is a
credential-issuing endpoint (login, refresh or logout path), the first
response is returned unmodified, exactly one request is issued, no refresh
and no retry happen, the session is unchanged and nothing is navigated —
in particular auth-endpoint requests are never retried even on 401. -/
theorem fetchWithAuth_passthrough
    (url : String) (options : FetchOptions) (t : Nat → FetchOutcome)
    (w : Bool) (s : Session) (r0 : Response)
    (h0 : t 0 = .success r0)
    (hcond : r0.status ≠ 401 ∨ isAuthEndpoint url = true) :
    fetchWithAuth url options t w s =
      ⟨[⟨url, buildFetchOptions options⟩], s, [], .ret r0⟩ := by
  rcases hcond with hne | hauth
  · simp [fetchWithAuth, h0, hne]
  · simp [fetchWithAuth, h0, hauth]

/-- Witness for C3: a login-endpoint request answered 401 is returned
as-is with no refresh. -/
theorem fetchWithAuth_passthrough_witness :
    fetchWithAuth (API_BASE_URL ++ "/api/auth/login/") {} oracle401 true
      clearedSession =
      ⟨[⟨API_BASE_URL ++ "/api/auth/login/", buildFetchOptions {}⟩],
       clearedSession, [], .ret { status := 401 }⟩ :=
  fetchWithAuth_passthrough (API_BASE_URL ++ "/api/auth/login/") {} oracle401
    true clearedSession { status := 401 } rfl (Or.inr (by decide))

/-- C2: on a 401 from a non-credential-issuing endpoint followed by a
failing refresh, exactly one request went to the original URL and one to
the refresh endpoint, the session is cleared (user empty,
isAuthenticated false), and the failing refresh response is returned; a
transport fault during the refresh likewise clears the session and is
re-thrown rather than swallowed. -/
theorem fetchWithAuth_refresh_failure_clears
    (url : String) (options : FetchOptions) (t : Nat → FetchOutcome)
    (w : Bool) (s : Session) (r0 : Response)
    (h0 : t 0 = .success r0) (hs : r0.status = 401)
    (ha : isAuthEndpoint url = false) :
    (∀ r1 : Response, t 1 = .success r1 → r1.ok = false →
       fetchWithAuth url options t w s =
         ⟨[⟨url, buildFetchOptions options⟩, refreshRequest],
          clearAuth s, loginNav w, .ret r1⟩) ∧
    (∀ e : String, t 1 = .fault e →
       fetchWithAuth url options t w s =
         ⟨[⟨url, buildFetchOptions options⟩, refreshRequest],
          clearAuth s, loginNav w, .thrown e⟩) ∧
    clearAuth s =
      { user := none, isAuthenticated := false, loading := false,
        error := none } := by
  refine ⟨?_, ?_, rfl⟩
  · intro r1 h1 hbad
    simp [fetchWithAuth, h0, h1, hs, ha, hbad]
  · intro e h1
    simp [fetchWithAuth, h0, h1, hs, ha]

/-- Witness for C2 at the products URL and the all-401 oracle: the
refresh comes back 401, the session is cleared and that refresh response
is returned. -/
theorem fetchWithAuth_refresh_failure_clears_witness :
    (∀ r1 : Response, oracle401 1 = .success r1 → r1.ok = false →
       fetchWithAuth productsUrl {} oracle401 true
           ⟨some "alice", true, false, none⟩ =
         ⟨[⟨productsUrl, buildFetchOptions {}⟩, refreshRequest],
          clearAuth ⟨some "alice", true, false, none⟩, loginNav true,
          .ret r1⟩) ∧
    (∀ e : String, oracle401 1 = .fault e →
       fetchWithAuth productsUrl {} oracle401 true
           ⟨some "alice", true, false, none⟩ =
         ⟨[⟨productsUrl, buildFetchOptions {}⟩, refreshRequest],
          clearAuth ⟨some "alice", true, false, none⟩, loginNav true,
          .thrown e⟩) ∧
    clearAuth ⟨some "alice", true, false, none⟩ =
      { user := none, isAuthenticated := false, loading := false,
        error := none } :=
  fetchWithAuth_refresh_failure_clears productsUrl {} oracle401 true
    ⟨some "alice", true, false, none⟩ { status := 401 } rfl rfl (by decide)

/-- C9: when the refresh succeeds but the retried original request
faults, `fetchWithAuth` handles it in the same catch branch as refresh
faults: it clears the session, navigates to `/login` (when a window is
defined), and re-throws the fault — no response is returned and the
session is not left intact. -/
theorem fetchWithAuth_retry_fault_clears_and_rethrows
    (url : String) (options : FetchOptions) (t : Nat → FetchOutcome)
    (w : Bool) (s : Session) (r0 r1 : Response) (e : String)
    (h0 : t 0 = .success r0) (hs : r0.status = 401)
    (ha : isAuthEndpoint url = false)
    (h1 : t 1 = .success r1) (hok : r1.ok = true)
    (h2 : t 2 = .fault e) :
    fetchWithAuth url options t w s =
      ⟨[⟨url, buildFetchOptions options⟩, refreshRequest,
        ⟨url, buildFetchOptions options⟩],
       clearAuth s, loginNav w, .thrown e⟩ := by
  simp [fetchWithAuth, h0, h1, h2, hs, ha, hok]

/-- Witness for C9 at the products URL with the refresh-ok/retry-fault
oracle. -/
theorem fetchWithAuth_retry_fault_clears_and_rethrows_witness :
    fetchWithAuth productsUrl {} oracleRetryFault true
        ⟨some "alice", true, false, none⟩ =
      ⟨[⟨productsUrl, buildFetchOptions {}⟩, refreshRequest,
        ⟨productsUrl, buildFetchOptions {}⟩],
       clearAuth ⟨some "alice", true, false, none⟩, loginNav true,
       .thrown "network down"⟩ :=
  fetchWithAuth_retry_fault_clears_and_rethrows productsUrl {}
    oracleRetryFault true ⟨some "alice", true, false, none⟩
    { status := 401 } { status := 200 } "network down"
    rfl rfl (by decide) rfl rfl rfl

/-- C4: under every transport behaviour, one `fetchWithAuth` call issues
at most three requests in total, among them at most one to the refresh
endpoint and at most two to the original URL — the function is total, so
it always terminates and never loops. -/
theorem fetchWithAuth_bounded
    (url : String) (options : FetchOptions) (t : Nat → FetchOutcome)
    (w : Bool) (s : Session) :
    (fetchWithAuth url options t w s).requests.length ≤ 3 ∧
    (fetchWithAuth url options t w s).requests.countP
      (fun q => q.url == refreshUrl) ≤ 1 ∧
    (fetchWithAuth url options t w s).requests.countP
      (fun q => q.url == url) ≤ 2 := by
  unfold fetchWithAuth
  cases h0 : t 0 with
  | fault e =>
    simp [List.countP_cons]
    split <;> simp
  | success r =>
    by_cases hc : (r.status != 401 || isAuthEndpoint url) = true
    · simp only [hc, if_true]
      refine ⟨by simp, ?_, ?_⟩ <;> (simp [List.countP_cons]; try (split <;> simp))
    · have hcf : (r.status != 401 || isAuthEndpoint url) = false := by
        simpa using hc
      have ha : isAuthEndpoint url = false := by
        simp only [Bool.or_eq_false_iff] at hcf
        exact hcf.2
      have hne : url ≠ refreshUrl := ne_refreshUrl_of_not_authEndpoint ha
      simp only [Bool.not_eq_true] at hc
      simp only [hc, if_false]
      cases h1 : t 1 with
      | fault e =>
        simp [List.countP_cons, refreshRequest, hne, Ne.symm hne]
      | success rr =>
        by_cases hok : rr.ok = true
        · simp only [hok, if_true]
          cases h2 : t 2 <;>
            simp [List.countP_cons, refreshRequest, hne, Ne.symm hne]
        · simp only [Bool.not_eq_true] at hok
          simp only [hok, if_false]
          simp [List.countP_cons, refreshRequest, hne, Ne.symm hne]

/-- C7 counterexample: at a concrete non-auth URL whose first response is
401 and whose refresh also returns 401, `fetchWithAuth` itself performs a
navigation — its navigation list is exactly ["/login"], not empty — so
the own effects of the executor are not limited to HTTP requests and session
mutation. -/
theorem fetchWithAuth_navigates_counterexample :
    (fetchWithAuth productsUrl {} oracle401 true clearedSession).navigations
        = ["/login"] ∧
    (["/login"] : List String) ≠ [] :=
  ⟨rfl, by simp⟩

/-- C7 amended: `fetchWithAuth` performs navigation itself, but only on
session termination — whenever its navigation list is nonempty, `window`
was defined, the navigation is exactly `/login`, and the session was
cleared at the same time; every other path navigates nowhere. -/
theorem fetchWithAuth_navigation_only_on_termination
    (url : String) (options : FetchOptions) (t : Nat → FetchOutcome)
    (w : Bool) (s : Session) :
    (fetchWithAuth url options t w s).navigations = [] ∨
    (w = true ∧
     (fetchWithAuth url options t w s).navigations = ["/login"] ∧
     (fetchWithAuth url options t w s).session = clearedSession) := by
  unfold fetchWithAuth
  cases h0 : t 0 with
  | fault e => simp
  | success r =>
    by_cases hc : (r.status != 401 || isAuthEndpoint url) = true
    · simp [hc]
    · simp only [Bool.not_eq_true] at hc
      simp only [hc, Bool.false_eq_true, if_false]
      cases h1 : t 1 with
      | fault e => cases w <;> simp [clearAuth, clearedSession, loginNav]
      | success rr =>
        by_cases hok : rr.ok = true
        · simp only [hok, if_true]
          cases h2 : t 2 with
          | fault e => cases w <;> simp [clearAuth, clearedSession, loginNav]
          | success r2 => simp
        · simp only [Bool.not_eq_true] at hok
          simp only [hok, Bool.false_eq_true, if_false]
          cases w <;> simp [clearAuth, clearedSession, loginNav]

/-- C8: every request `fetchWithAuth` issues — first attempt, refresh
call and retry — carries `credentials := "include"`, whatever the
caller-supplied options say. -/
theorem fetchWithAuth_credentials_include
    (url : String) (options : FetchOptions) (t : Nat → FetchOutcome)
    (w : Bool) (s : Session) :
    ∀ q ∈ (fetchWithAuth url options t w s).requests,
      q.options.credentials = some "include" := by
  have hbuild : (buildFetchOptions options).credentials = some "include" := rfl
  have hrefresh : refreshRequest.options.credentials = some "include" := rfl
  unfold fetchWithAuth
  cases h0 : t 0 with
  | fault e =>
    intro q hq
    simp only [List.mem_singleton] at hq
    subst hq; exact hbuild
  | success r =>
    by_cases hc : (r.status != 401 || isAuthEndpoint url) = true
    · simp only [hc, if_true]
      intro q hq
      simp only [List.mem_singleton] at hq
      subst hq; exact hbuild
    · simp only [Bool.not_eq_true] at hc
      simp only [hc, if_false]
      cases h1 : t 1 with
      | fault e =>
        intro q hq
        rcases List.mem_cons.mp hq with h | h
        · subst h; exact hbuild
        · simp only [List.mem_singleton] at h; subst h; exact hrefresh
      | success rr =>
        by_cases hok : rr.ok = true
        · simp only [hok, if_true]
          have hall : ∀ q ∈ [(⟨url, buildFetchOptions options⟩ : Request),
              refreshRequest, ⟨url, buildFetchOptions options⟩],
              q.options.credentials = some "include" := by
            intro q hq
            rcases List.mem_cons.mp hq with h | h
            · subst h; exact hbuild
            rcases List.mem_cons.mp h with h | h
            · subst h; exact hrefresh
            · simp only [List.mem_singleton] at h; subst h; exact hbuild
          cases h2 : t 2 <;> exact hall
        · simp only [Bool.not_eq_true] at hok
          simp only [hok, if_false]
          intro q hq
          rcases List.mem_cons.mp hq with h | h
          · subst h; exact hbuild
          · simp only [List.mem_singleton] at h; subst h; exact hrefresh

/-- Witness for C8: the single request of an ok call at the products URL,
made with empty caller options, carries `credentials := "include"`. -/
theorem fetchWithAuth_credentials_include_witness :
    (⟨productsUrl, buildFetchOptions {}⟩ : Request).options.credentials
      = some "include" :=
  fetchWithAuth_credentials_include productsUrl {} oracle200 true
    clearedSession ⟨productsUrl, buildFetchOptions {}⟩
    (show _ ∈ [(⟨productsUrl, buildFetchOptions {}⟩ : Request)] from
      List.mem_singleton_self _)

/-- C5: with a persisted `isAuthenticated = true` flag, any verification
run that does not conclude authenticated — neither an outright success
nor a 401 recovered by a successful refresh and retried `/me` — leaves
the session cleared (user null, isAuthenticated false): hydration fails
closed instead of retaining the persisted state. -/
theorem hydrate_fails_closed
    (t : Nat → FetchOutcome) (s : Session)
    (h : verificationRecovered t = false) :
    (hydrate (.parsed true) t s).session = clearedSession := by
  unfold hydrate
  unfold verificationRecovered at h
  cases h0 : t 0 with
  | fault e => simp [clearedSession]
  | success r =>
    rw [h0] at h
    by_cases hs : (r.status == 401) = true
    · cases h1 : t 1 with
      | fault e => simp [hs, clearedSession]
      | success rr =>
        rw [h1] at h
        by_cases hok : rr.ok = true
        · cases h2 : t 2 with
          | fault e => simp [hs, hok, clearedSession]
          | success r2 =>
            rw [h2] at h
            simp only [hs, hok, if_true, eq_self_iff_true, Bool.true_and] at h
            simp [hs, hok, h, clearedSession]
        · simp only [Bool.not_eq_true] at hok
          simp [hs, hok, clearedSession]
    · simp only [Bool.not_eq_true] at hs
      simp only [hs, Bool.false_eq_true, if_false] at h
      simp [hs, h, clearedSession]

/-- Witness for C5: a 500 on `/me` (never success, never a recovered
401) clears the session. -/
theorem hydrate_fails_closed_witness :
    (hydrate (.parsed true) oracle500 ⟨some "alice", true, false, none⟩).session
      = clearedSession :=
  hydrate_fails_closed oracle500 ⟨some "alice", true, false, none⟩ rfl

/-- C6: with no persisted auth state, or a persisted `isAuthenticated`
flag that is false, hydration issues no network request and leaves the
session cleared: user null, unauthenticated, no error, loading reset to
false. -/
theorem hydrate_no_flag_no_network
    (t : Nat → FetchOutcome) (s : Session) :
    hydrate .absent t s = ⟨[], clearedSession⟩ ∧
    hydrate (.parsed false) t s = ⟨[], clearedSession⟩ :=
  ⟨rfl, rfl⟩

/-- C10: every product-store action calls the transport directly: each
issues exactly its own single request and never the refresh request, and
a 401 sets the store error to "Unauthorized" with no refresh and no
retry; `fetchProducts` additionally empties the products list. -/
theorem productStore_plain_client_behavior
    (t : Nat → FetchOutcome) (st : ProductState) (productId : Nat)
    (productData : String) (r : Response)
    (h0 : t 0 = .success r) (hs : r.status = 401) :
    (fetchProducts t st).requests = [⟨productsUrl, plainJsonOptions "GET"⟩] ∧
    (createProduct productData t st).requests =
      [⟨productsUrl, plainJsonOptions "POST" (some productData)⟩] ∧
    (updateProduct productId productData t st).requests =
      [⟨productItemUrl productId, plainJsonOptions "PUT" (some productData)⟩] ∧
    (deleteProduct productId t st).requests =
      [⟨productItemUrl productId, plainJsonOptions "DELETE"⟩] ∧
    refreshRequest ∉ (fetchProducts t st).requests ∧
    refreshRequest ∉ (createProduct productData t st).requests ∧
    refreshRequest ∉ (updateProduct productId productData t st).requests ∧
    refreshRequest ∉ (deleteProduct productId t st).requests ∧
    (fetchProducts t st).state =
      { products := [], loading := false, error := some "Unauthorized" } ∧
    (createProduct productData t st).state.error = some "Unauthorized" ∧
    (updateProduct productId productData t st).state.error = some "Unauthorized" ∧
    (deleteProduct productId t st).state.error = some "Unauthorized" := by
  have hnotok : r.ok = false := by
    simp [Response.ok, hs]
  refine ⟨rfl, rfl, rfl, rfl, ?_, ?_, ?_, ?_, ?_, ?_, ?_, ?_⟩
  · rw [show (fetchProducts t st).requests =
        [⟨productsUrl, plainJsonOptions "GET"⟩] from rfl]
    simp only [List.mem_singleton]
    intro hmem
    have hm : some "POST" = some "GET" :=
      congrArg (fun q => q.options.method) hmem
    exact absurd hm (by decide)
  · rw [show (createProduct productData t st).requests =
        [⟨productsUrl, plainJsonOptions "POST" (some productData)⟩] from rfl]
    simp only [List.mem_singleton]
    intro hmem
    have hurl : refreshUrl = productsUrl := congrArg Request.url hmem
    exact absurd hurl (by decide)
  · rw [show (updateProduct productId productData t st).requests =
        [⟨productItemUrl productId, plainJsonOptions "PUT" (some productData)⟩]
        from rfl]
    simp only [List.mem_singleton]
    intro hmem
    have hm : some "POST" = some "PUT" :=
      congrArg (fun q => q.options.method) hmem
    exact absurd hm (by decide)
  · rw [show (deleteProduct productId t st).requests =
        [⟨productItemUrl productId, plainJsonOptions "DELETE"⟩] from rfl]
    simp only [List.mem_singleton]
    intro hmem
    have hm : some "POST" = some "DELETE" :=
      congrArg (fun q => q.options.method) hmem
    exact absurd hm (by decide)
  · simp [fetchProducts, h0, hnotok, hs]
  · simp [createProduct, h0, hnotok, hs]
  · simp [updateProduct, h0, hnotok, hs]
  · simp [deleteProduct, h0, hnotok, hs]

/-- Witness for C10 at the all-401 oracle, an empty store, product id 7
and a concrete payload. -/
theorem productStore_plain_client_behavior_witness :
    (fetchProducts oracle401 ⟨[], false, none⟩).requests =
      [⟨productsUrl, plainJsonOptions "GET"⟩] ∧
    (createProduct "p" oracle401 ⟨[], false, none⟩).requests =
      [⟨productsUrl, plainJsonOptions "POST" (some "p")⟩] ∧
    (updateProduct 7 "p" oracle401 ⟨[], false, none⟩).requests =
      [⟨productItemUrl 7, plainJsonOptions "PUT" (some "p")⟩] ∧
    (deleteProduct 7 oracle401 ⟨[], false, none⟩).requests =
      [⟨productItemUrl 7, plainJsonOptions "DELETE"⟩] ∧
    refreshRequest ∉ (fetchProducts oracle401 ⟨[], false, none⟩).requests ∧
    refreshRequest ∉ (createProduct "p" oracle401 ⟨[], false, none⟩).requests ∧
    refreshRequest ∉ (updateProduct 7 "p" oracle401 ⟨[], false, none⟩).requests ∧
    refreshRequest ∉ (deleteProduct 7 oracle401 ⟨[], false, none⟩).requests ∧
    (fetchProducts oracle401 ⟨[], false, none⟩).state =
      { products := [], loading := false, error := some "Unauthorized" } ∧
    (createProduct "p" oracle401 ⟨[], false, none⟩).state.error
      = some "Unauthorized" ∧
    (updateProduct 7 "p" oracle401 ⟨[], false, none⟩).state.error
      = some "Unauthorized" ∧
    (deleteProduct 7 oracle401 ⟨[], false, none⟩).state.error
      = some "Unauthorized" :=
  productStore_plain_client_behavior oracle401 ⟨[], false, none⟩ 7 "p"
    { status := 401 } rfl rfl

end FreezeLedger
